import Mathlib

/-!
Shallow embedding of the alert-generation engine of `simple_ecoport.py`
(class `AlertEngine` together with the configuration it reads), and proofs
of the behavioural properties stated about it.

Modelling conventions:
* Python floats are modelled as rationals (`ℚ`); Python ints that flow into
  the same comparisons are modelled as rationals as well.
* A snapshot dictionary produced by `DynamicDataGenerator` is modelled as a
  record with one field per dictionary key.
* An alert dictionary is modelled as a record; the formatted `message`
  string is abstracted to the single numeric value interpolated into it
  (field `value`), and the fixed `title` string is kept verbatim.
* Code that can raise a Python exception (the `ZeroDivisionError` in the
  trend-percentage computation of `_check_carbon_emission_alerts`) is
  modelled in the `Except String` monad; a `.error` result models the
  exception propagating out of `analyze_and_generate_alerts`.
* Python timestamps are modelled as an abstract instant (`Nat`); the
  `datetime.now()` call inside `_check_predictive_alerts` becomes an
  explicit `now` argument.
-/

namespace EcoPort

/-- Record modelling one data point produced by
`DynamicDataGenerator.get_latest_data` / stored in `historical_data`
(`simple_ecoport.py`, lines 103-144): the dictionary keys become fields. -/
structure TelemetryData where
  timestamp : Nat
  carbon_emission : ℚ
  energy_consumption : ℚ
  energy_efficiency : ℚ
  vessel_count : ℚ
  renewable_ratio : ℚ
  esg_score : ℚ
  terminal_1_power : ℚ
  terminal_2_power : ℚ
  terminal_3_power : ℚ
  weather_wind_speed : ℚ
  air_quality_aqi : ℚ
  deriving DecidableEq, Repr

/-- Record modelling the mutable threshold dictionary
`Config.ALERT_THRESHOLDS` (`simple_ecoport.py`, lines 82-90). -/
structure AlertThresholds where
  carbon_emission_high : ℚ
  carbon_emission_critical : ℚ
  energy_efficiency_low : ℚ
  energy_consumption_spike : ℚ
  vessel_congestion : ℚ
  esg_score_low : ℚ
  renewable_ratio_low : ℚ
  deriving DecidableEq, Repr

/-- Default threshold values from `Config.ALERT_THRESHOLDS`. -/
def defaultThresholds : AlertThresholds :=
  { carbon_emission_high := 1200
    carbon_emission_critical := 1500
    energy_efficiency_low := 70
    energy_consumption_spike := 13 / 10
    vessel_congestion := 250
    esg_score_low := 60
    renewable_ratio_low := 15 }

/-- Record modelling one alert dictionary appended to
`self.active_alerts`.  The `message` f-string is abstracted to the numeric
quantity interpolated into it (`value`); `recommendation` carries no data
used anywhere and is dropped. -/
structure Alert where
  type : String
  priority : String
  title : String
  value : ℚ
  category : String
  timestamp : Nat
  deriving DecidableEq, Repr

instance : Inhabited Alert := ⟨⟨"", "", "", 0, "", 0⟩⟩

/-- Boolean translation of the Python generator expression
`all(xs[i] < xs[i+1] for i in range(len(xs)-1))` used by the two trend
checks: every element is strictly smaller than its successor. -/
def strictlyIncreasing : List ℚ → Bool
  | a :: b :: rest => decide (a < b) && strictlyIncreasing (b :: rest)
  | _ => true

/-- Translation of `np.mean` on a list of rationals (sum divided by
length; only ever applied to nonempty lists in the engine). -/
def mean (l : List ℚ) : ℚ := l.sum / l.length

/-- First half of `AlertEngine._check_carbon_emission_alerts`
(`simple_ecoport.py`, lines 194-215): the `if`/`elif` level check on the
current carbon emission. -/
def carbonLevelAlerts (cur : TelemetryData) (th : AlertThresholds) : List Alert :=
  if cur.carbon_emission > th.carbon_emission_critical then
    [{ type := "error", priority := "critical", title := "🚨 碳排放嚴重超標",
       value := cur.carbon_emission, category := "emission", timestamp := cur.timestamp }]
  else if cur.carbon_emission > th.carbon_emission_high then
    [{ type := "warning", priority := "high", title := "⚠️ 碳排放量偏高",
       value := cur.carbon_emission, category := "emission", timestamp := cur.timestamp }]
  else []

/-- Carbon emissions of the last three history samples: the local
`recent_emissions = [d['carbon_emission'] for d in trend_data[-3:]]` of
`_check_carbon_emission_alerts`. -/
def recentEmissions (trend : List TelemetryData) : List ℚ :=
  (trend.drop (trend.length - 3)).map (·.carbon_emission)

/-- Percentage rise over the three-sample window: the local
`increase_rate = (recent[-1] - recent[0]) / recent[0] * 100` (written with
the rational division-by-zero convention; the code itself raises at a zero
baseline before any comparison happens). -/
def increaseRate (trend : List TelemetryData) : ℚ :=
  ((recentEmissions trend).getLastD 0 - (recentEmissions trend).headD 0) /
    (recentEmissions trend).headD 0 * 100

/-- Second half of `AlertEngine._check_carbon_emission_alerts`
(`simple_ecoport.py`, lines 217-231): the three-sample trend check.  The
Python code divides by `recent_emissions[0]` with no guard, so a zero
baseline raises `ZeroDivisionError`; that exception is modelled as the
`.error` branch. -/
def carbonTrendAlerts (cur : TelemetryData) (trend : List TelemetryData) :
    Except String (List Alert) :=
  if trend.length ≥ 3 then
    if strictlyIncreasing (recentEmissions trend) then
      if (recentEmissions trend).headD 0 = 0 then .error "ZeroDivisionError"
      else if increaseRate trend > 15 then
        .ok [{ type := "warning", priority := "medium", title := "📈 碳排放持續上升",
               value := increaseRate trend, category := "trend",
               timestamp := cur.timestamp }]
      else .ok []
    else .ok []
  else .ok []

/-- Whole of `AlertEngine._check_carbon_emission_alerts`: the level alerts
are appended first, then the trend alert (if any). -/
def checkCarbonEmissionAlerts (cur : TelemetryData) (trend : List TelemetryData)
    (th : AlertThresholds) : Except String (List Alert) := do
  let t ← carbonTrendAlerts cur trend
  pure (carbonLevelAlerts cur th ++ t)

/-- Efficiency part of `AlertEngine._check_energy_alerts`
(`simple_ecoport.py`, lines 240-249). -/
def efficiencyAlerts (cur : TelemetryData) (th : AlertThresholds) : List Alert :=
  if cur.energy_efficiency < th.energy_efficiency_low then
    [{ type := "warning", priority := "medium", title := "⚡ 能源效率偏低",
       value := cur.energy_efficiency, category := "efficiency", timestamp := cur.timestamp }]
  else []

/-- Spike part of `AlertEngine._check_energy_alerts`
(`simple_ecoport.py`, lines 251-263): mean of all history samples except
the most recent one, compared against the spike ratio.  The reported
percentage `(consumption/avg - 1) * 100` uses the rational
division-by-zero convention where NumPy would produce an infinite float;
no property about the payload is stated at a zero mean. -/
def spikeAlerts (cur : TelemetryData) (trend : List TelemetryData)
    (th : AlertThresholds) : List Alert :=
  if trend.length ≥ 2 then
    if cur.energy_consumption >
        mean (trend.dropLast.map (·.energy_consumption)) *
          th.energy_consumption_spike then
      [{ type := "error", priority := "high", title := "⚡ 能耗異常飆升",
         value := (cur.energy_consumption /
           mean (trend.dropLast.map (·.energy_consumption)) - 1) * 100,
         category := "consumption", timestamp := cur.timestamp }]
    else []
  else []

/-- Renewable-ratio part of `AlertEngine._check_energy_alerts`
(`simple_ecoport.py`, lines 265-275). -/
def renewableAlerts (cur : TelemetryData) (th : AlertThresholds) : List Alert :=
  if cur.renewable_ratio < th.renewable_ratio_low then
    [{ type := "info", priority := "low", title := "🔋 再生能源使用不足",
       value := cur.renewable_ratio, category := "renewable", timestamp := cur.timestamp }]
  else []

/-- Whole of `AlertEngine._check_energy_alerts`: the three checks append
in source order. -/
def checkEnergyAlerts (cur : TelemetryData) (trend : List TelemetryData)
    (th : AlertThresholds) : List Alert :=
  efficiencyAlerts cur th ++ spikeAlerts cur trend th ++ renewableAlerts cur th

/-- Body of the per-terminal loop of `AlertEngine._check_equipment_alerts`
(`simple_ecoport.py`, lines 285-305). -/
def terminalAlerts (name : String) (power : ℚ) (ts : Nat) : List Alert :=
  if power > 700 then
    [{ type := "warning", priority := "medium", title := "🏭 " ++ name ++ "功率異常",
       value := power, category := "equipment", timestamp := ts }]
  else if power < 100 then
    [{ type := "info", priority := "low", title := "🔧 " ++ name ++ "功率過低",
       value := power, category := "equipment", timestamp := ts }]
  else []

/-- Whole of `AlertEngine._check_equipment_alerts`: the dictionary
iterates in insertion order, terminal 1 then 2 then 3. -/
def checkEquipmentAlerts (cur : TelemetryData) : List Alert :=
  terminalAlerts "第1號碼頭" cur.terminal_1_power cur.timestamp ++
  terminalAlerts "第2號碼頭" cur.terminal_2_power cur.timestamp ++
  terminalAlerts "第3號碼頭" cur.terminal_3_power cur.timestamp

/-- Translation of `AlertEngine._check_environmental_alerts`
(`simple_ecoport.py`, lines 307-335); the air-quality alert keeps the AQI
value, the two message variants share one title. -/
def checkEnvironmentalAlerts (cur : TelemetryData) : List Alert :=
  (if cur.weather_wind_speed > 20 then
    [{ type := "warning", priority := "medium", title := "🌪️ 強風天氣警示",
       value := cur.weather_wind_speed, category := "weather", timestamp := cur.timestamp }]
  else []) ++
  (if cur.air_quality_aqi > 100 then
    [{ type := "warning", priority := "medium", title := "🌫️ 空氣品質警示",
       value := cur.air_quality_aqi, category := "environment", timestamp := cur.timestamp }]
  else [])

/-- Translation of `AlertEngine._check_operational_alerts`
(`simple_ecoport.py`, lines 337-365): congestion check then the
four-sample vessel-count trend check. -/
def checkOperationalAlerts (cur : TelemetryData) (trend : List TelemetryData)
    (th : AlertThresholds) : List Alert :=
  (if cur.vessel_count > th.vessel_congestion then
    [{ type := "warning", priority := "high", title := "🚢 港口船舶擁塞",
       value := cur.vessel_count, category := "operation", timestamp := cur.timestamp }]
  else []) ++
  (if trend.length ≥ 4 then
    if strictlyIncreasing ((trend.drop (trend.length - 4)).map (·.vessel_count)) then
      [{ type := "info", priority := "medium", title := "📈 船舶數量持續增加",
         value := cur.vessel_count, category := "trend", timestamp := cur.timestamp }]
    else []
  else [])

/-- Translation of `AlertEngine._check_esg_alerts`
(`simple_ecoport.py`, lines 367-380). -/
def checkEsgAlerts (cur : TelemetryData) (th : AlertThresholds) : List Alert :=
  if cur.esg_score < th.esg_score_low then
    [{ type := "warning", priority := "medium", title := "📊 ESG評分偏低",
       value := cur.esg_score, category := "esg", timestamp := cur.timestamp }]
  else []

/-- Exact degree-1 least-squares fit over `(i, ys[i])` for
`i = 0 .. len-1` followed by evaluation at index `len + 2`, translating
`np.polyfit(x, emissions, 1)` and
`coefficients[0] * (len(emissions) + 2) + coefficients[1]` in
`AlertEngine._check_predictive_alerts` (`simple_ecoport.py`,
lines 388-393).  The float least squares is idealised to the exact
rational normal-equation solution. -/
def futureEmission (ys : List ℚ) : ℚ :=
  let n : ℚ := ys.length
  let sx : ℚ := ((List.range ys.length).map (fun i => (i : ℚ))).sum
  let sxx : ℚ := ((List.range ys.length).map (fun i => (i : ℚ) ^ 2)).sum
  let sy : ℚ := ys.sum
  let sxy : ℚ := (ys.enum.map (fun p => (p.1 : ℚ) * p.2)).sum
  let slope := (n * sxy - sx * sy) / (n * sxx - sx ^ 2)
  let intercept := (sy - slope * sx) / n
  slope * (n + 2) + intercept

/-- Translation of `AlertEngine._check_predictive_alerts`
(`simple_ecoport.py`, lines 382-404).  The `datetime.now()` timestamp of
the prediction alert is the explicit `now` argument. -/
def checkPredictiveAlerts (trend : List TelemetryData) (th : AlertThresholds)
    (now : Nat) : List Alert :=
  if trend.length ≥ 6 then
    if futureEmission (trend.map (·.carbon_emission)) > th.carbon_emission_high then
      [{ type := "info", priority := "medium", title := "🔮 預測性警示",
         value := futureEmission (trend.map (·.carbon_emission)),
         category := "prediction", timestamp := now }]
    else []
  else []

/-- Translation of `AlertEngine.analyze_and_generate_alerts`
(`simple_ecoport.py`, lines 159-190): every rule family runs in source
order and the produced alerts are concatenated into `active_alerts`.
`cur` and `trend` stand for the values pulled from the data generator;
a `.error` result models the `ZeroDivisionError` escaping the call. -/
def analyzeAndGenerateAlerts (cur : TelemetryData) (trend : List TelemetryData)
    (th : AlertThresholds) (now : Nat) : Except String (List Alert) := do
  let carbon ← checkCarbonEmissionAlerts cur trend th
  pure (carbon ++ checkEnergyAlerts cur trend th ++ checkEquipmentAlerts cur ++
    checkEnvironmentalAlerts cur ++ checkOperationalAlerts cur trend th ++
    checkEsgAlerts cur th ++ checkPredictiveAlerts trend th now)

/-- Translation of `AlertEngine._update_alert_history`
(`simple_ecoport.py`, lines 406-413): append every active alert, then
keep only the most recent 50 entries (`self.alert_history[-50:]`,
i.e. dropping all but the last 50). -/
def updateAlertHistory (hist active : List Alert) : List Alert :=
  if (hist ++ active).length > 50 then
    (hist ++ active).drop ((hist ++ active).length - 50)
  else hist ++ active

/-- Record modelling the populated statistics dictionary returned by
`AlertEngine.get_alert_statistics`; each counting dictionary is modelled
as its lookup-with-default-0 function. -/
structure AlertStatistics where
  total : Nat
  by_type : String → Nat
  by_category : String → Nat
  by_priority : String → Nat

/-- Translation of the incremental dictionary counting
`d[k] = d.get(k, 0) + 1` performed by `get_alert_statistics` over one
projection of the alert record. -/
def countBy (f : Alert → String) (l : List Alert) : String → Nat :=
  l.foldl (fun m a => fun k => if k = f a then m k + 1 else m k) (fun _ => 0)

/-- Translation of `AlertEngine.get_alert_statistics`
(`simple_ecoport.py`, lines 415-443).  On an empty history the Python
code returns the empty dictionary `{}` — a value with no `total` entry at
all — which is modelled as `none`; a populated history yields the
four-entry statistics record. -/
def getAlertStatistics (hist : List Alert) : Option AlertStatistics :=
  if hist.isEmpty then none
  else some
    { total := hist.length
      by_type := countBy (·.type) hist
      by_category := countBy (·.category) hist
      by_priority := countBy (·.priority) hist }

/-- Projection of an alert to everything except its timestamp, used to
compare alert content across evaluation cycles. -/
def alertContent (a : Alert) : String × String × String × ℚ × String :=
  (a.type, a.priority, a.title, a.value, a.category)

/-! Concrete fixtures used to instantiate the theorems below.  `baseSnap`
is chosen inside every documented range and firing no rule under the
default thresholds. -/

/-- Snapshot with every metric in its normal band: no rule fires on it
with `defaultThresholds`. -/
def baseSnap : TelemetryData :=
  { timestamp := 0, carbon_emission := 1000, energy_consumption := 1000,
    energy_efficiency := 80, vessel_count := 100, renewable_ratio := 20,
    esg_score := 70, terminal_1_power := 300, terminal_2_power := 300,
    terminal_3_power := 300, weather_wind_speed := 10, air_quality_aqi := 50 }

/-- Benign snapshot carrying a prescribed timestamp and carbon emission. -/
def mkEmissionSnap (ts : Nat) (e : ℚ) : TelemetryData :=
  { baseSnap with timestamp := ts, carbon_emission := e }

/-- Benign snapshot carrying a prescribed timestamp and energy
consumption. -/
def mkConsSnap (ts : Nat) (c : ℚ) : TelemetryData :=
  { baseSnap with timestamp := ts, energy_consumption := c }

/-- Perfectly linear six-sample emission history `[1000, 1020, 1040,
1060, 1080, 1100]` from the predictive-rule example. -/
def linearEmissionHistory : List TelemetryData :=
  [mkEmissionSnap 0 1000, mkEmissionSnap 1 1020, mkEmissionSnap 2 1040,
   mkEmissionSnap 3 1060, mkEmissionSnap 4 1080, mkEmissionSnap 5 1100]

/-- Thresholds of the predictive-rule example: `carbon_emission_high`
lowered to 1100. -/
def predThresholds : AlertThresholds :=
  { defaultThresholds with carbon_emission_high := 1100 }

/-- History whose last three carbon emissions are `[0, 1, 2]`: strictly
increasing with a zero baseline. -/
def zeroBaselineHistory : List TelemetryData :=
  [mkEmissionSnap 0 0, mkEmissionSnap 1 1, mkEmissionSnap 2 2]

/-- Two-sample history whose older sample has zero energy consumption, so
the spike rule's mean over `history[:-1]` is zero. -/
def zeroMeanConsHistory : List TelemetryData :=
  [mkConsSnap 0 0, mkConsSnap 1 0]

/-- Contract-violating snapshot: `energy_efficiency = -10` lies outside
the documented range `[0, 100]`; every other field is in range. -/
def snapBadEfficiency : TelemetryData :=
  { baseSnap with energy_efficiency := -10 }

/-- Five-sample history with energy consumptions `[500, 500, 500, 500, x]`
from the spike-rule example. -/
def spikeHistory (x : ℚ) : List TelemetryData :=
  [mkConsSnap 0 500, mkConsSnap 1 500, mkConsSnap 2 500, mkConsSnap 3 500,
   mkConsSnap 4 x]

/-- History whose last three carbon emissions are `[100, 110, 125]`:
strictly increasing with a 25% rise. -/
def risingEmissionHistory : List TelemetryData :=
  [mkEmissionSnap 0 100, mkEmissionSnap 1 110, mkEmissionSnap 2 125]

/-- History whose last three carbon emissions are `[100, 95, 110]`:
non-monotonic. -/
def bumpyEmissionHistory : List TelemetryData :=
  [mkEmissionSnap 0 100, mkEmissionSnap 1 95, mkEmissionSnap 2 110]

/-- Snapshot whose carbon emission 1600 exceeds the default critical
threshold 1500. -/
def snapCritical : TelemetryData :=
  { baseSnap with carbon_emission := 1600 }

/-- Snapshot whose only abnormal metric is an energy efficiency of 50
(below the default threshold 70), used for the repeated-evaluation
witness. -/
def snapLowEfficiency : TelemetryData :=
  { baseSnap with energy_efficiency := 50, timestamp := 5 }

/-- Two-alert history used to instantiate the statistics theorems. -/
def demoHistory : List Alert :=
  [{ type := "warning", priority := "high", title := "a", value := 1,
     category := "emission", timestamp := 0 },
   { type := "info", priority := "low", title := "b", value := 2,
     category := "trend", timestamp := 1 }]

/-- Statistics record obtained from `demoHistory`, used to instantiate
the statistics theorems. -/
def demoStats : AlertStatistics :=
  { total := demoHistory.length
    by_type := countBy (·.type) demoHistory
    by_category := countBy (·.category) demoHistory
    by_priority := countBy (·.priority) demoHistory }

/-! Theorems. -/

/-- Incremental dictionary counting agrees with counting the matching
elements directly. -/
theorem countBy_eq (f : Alert → String) (l : List Alert) (k : String) :
    countBy f l k = l.countP (fun a => f a == k) := by
  suffices h : ∀ m : String → Nat,
      (l.foldl (fun m a => fun k => if k = f a then m k + 1 else m k) m) k =
        m k + l.countP (fun a => f a == k) by
    simpa [countBy] using h (fun _ => 0)
  induction l with
  | nil => intro m; simp
  | cons a t ih =>
    intro m
    rw [List.foldl_cons, ih, List.countP_cons]
    by_cases hk : f a = k
    · simp [hk]
      omega
    · have hk2 : ¬ (k = f a) := fun hgg => hk hgg.symm
      simp [hk, hk2]

/-- Summing the per-key counts over the distinct keys occurring in the
history recovers the history length. -/
theorem sum_countBy_dedup (f : Alert → String) (hist : List Alert) :
    ((hist.map f).dedup.map (countBy f hist)).sum = hist.length := by
  have h1 : countBy f hist = fun k => (hist.map f).count k := by
    funext k
    rw [countBy_eq, List.count, List.countP_map]
    rfl
  rw [h1, List.sum_map_count_dedup_eq_length, List.length_map]

/-- C1 counterexample: on the perfectly linear history
`[1000, 1020, 1040, 1060, 1080, 1100]` with `carbon_emission_high = 1100`
the predictive rule emits one alert, but its predicted value is `1160`
(the fitted line `1000 + 20 i` evaluated at `i = len + 2 = 8`), not the
claimed `1140` (which would be index 7, two steps beyond the last
index 5). -/
theorem predictive_linear_value_ne_1140 :
    (checkPredictiveAlerts linearEmissionHistory predThresholds 0).map Alert.value =
      [1160] ∧
    (checkPredictiveAlerts linearEmissionHistory predThresholds 0).map Alert.value ≠
      [1140] := by
  have h : checkPredictiveAlerts linearEmissionHistory predThresholds 0 =
      [{ type := "info", priority := "medium", title := "🔮 預測性警示",
         value := 1160, category := "prediction", timestamp := 0 }] := by
    norm_num [checkPredictiveAlerts, futureEmission, linearEmissionHistory,
      mkEmissionSnap, baseSnap, predThresholds, defaultThresholds,
      List.range_succ, List.enum, List.enumFrom]
  rw [h]
  norm_num

/-- C1 amended: the degree-1 least-squares fit over the linear history
`[1000, 1020, 1040, 1060, 1080, 1100]` extrapolated to index
`len(history) + 2 = 8` (three steps beyond the last index) equals `1160`,
and with `carbon_emission_high = 1100` the rule emits exactly one
`info/medium` alert carrying predicted value `1160`. -/
theorem predictive_linear_forecast_1160 :
    futureEmission [1000, 1020, 1040, 1060, 1080, 1100] = 1160 ∧
    checkPredictiveAlerts linearEmissionHistory predThresholds 0 =
      [{ type := "info", priority := "medium", title := "🔮 預測性警示",
         value := 1160, category := "prediction", timestamp := 0 }] := by
  constructor <;>
    norm_num [checkPredictiveAlerts, futureEmission, linearEmissionHistory,
      mkEmissionSnap, baseSnap, predThresholds, defaultThresholds,
      List.range_succ, List.enum, List.enumFrom]

/-- C2: at a zero trend baseline (last three emissions `[0, 1, 2]`) the
carbon-trend rule does not skip — the division faults
(`ZeroDivisionError`) and propagates out of
`analyze_and_generate_alerts`; and at a zero spike mean the
energy-spike rule does not skip either — it emits its alert (NumPy turns
the division into an infinite percentage instead of raising). -/
theorem degenerate_arithmetic_faults :
    carbonTrendAlerts (mkEmissionSnap 3 2) zeroBaselineHistory =
      Except.error "ZeroDivisionError" ∧
    analyzeAndGenerateAlerts (mkEmissionSnap 3 2) zeroBaselineHistory
      defaultThresholds 0 = Except.error "ZeroDivisionError" ∧
    spikeAlerts (mkConsSnap 2 100) zeroMeanConsHistory defaultThresholds ≠ [] := by
  refine ⟨?_, ?_, ?_⟩
  · norm_num [carbonTrendAlerts, recentEmissions, zeroBaselineHistory,
      mkEmissionSnap, baseSnap, strictlyIncreasing]
  · norm_num [analyzeAndGenerateAlerts, checkCarbonEmissionAlerts,
      carbonTrendAlerts, recentEmissions, zeroBaselineHistory, mkEmissionSnap,
      baseSnap, strictlyIncreasing, Except.bind]
  · norm_num [spikeAlerts, mean, zeroMeanConsHistory, mkConsSnap, baseSnap,
      defaultThresholds]

/-- C4: the carbon-emission level rule emits exactly one `error/critical`
alert (and no `warning/high` one) when the emission exceeds the critical
threshold, exactly one `warning/high` alert when it lies strictly between
the high and critical thresholds, and nothing otherwise. -/
theorem carbon_level_rule_exclusive (cur : TelemetryData) (th : AlertThresholds) :
    (cur.carbon_emission > th.carbon_emission_critical →
      (carbonLevelAlerts cur th).countP
          (fun a => a.type == "error" && a.priority == "critical") = 1 ∧
      (carbonLevelAlerts cur th).countP
          (fun a => a.type == "warning" && a.priority == "high") = 0 ∧
      (carbonLevelAlerts cur th).length = 1) ∧
    (th.carbon_emission_high < cur.carbon_emission ∧
        cur.carbon_emission ≤ th.carbon_emission_critical →
      (carbonLevelAlerts cur th).countP
          (fun a => a.type == "warning" && a.priority == "high") = 1 ∧
      (carbonLevelAlerts cur th).length = 1) ∧
    (cur.carbon_emission ≤ th.carbon_emission_high ∧
        cur.carbon_emission ≤ th.carbon_emission_critical →
      carbonLevelAlerts cur th = []) := by
  unfold carbonLevelAlerts
  split_ifs with h1 h2
  · exact ⟨fun _ => by simp [List.countP, List.countP.go],
      fun hw => absurd h1 (not_lt.mpr hw.2),
      fun hn => absurd h1 (not_lt.mpr hn.2)⟩
  · exact ⟨fun hc => absurd hc h1,
      fun _ => by simp [List.countP, List.countP.go],
      fun hn => absurd h2 (not_lt.mpr hn.1)⟩
  · exact ⟨fun hc => absurd hc h1, fun hw => absurd hw.1 h2, fun _ => rfl⟩

/-- C3 counterexample: the snapshot with `energy_efficiency = -10`
violates the documented range `[0, 100]`, yet the engine does not reject
it — the evaluation cycle succeeds and computes an alert from the raw
out-of-range value. -/
theorem contract_violation_not_rejected_cex :
    analyzeAndGenerateAlerts snapBadEfficiency [] defaultThresholds 0 =
      Except.ok [{ type := "warning", priority := "medium",
                   title := "⚡ 能源效率偏低", value := -10,
                   category := "efficiency", timestamp := 0 }] ∧
    ([{ type := "warning", priority := "medium", title := "⚡ 能源效率偏低",
        value := -10, category := "efficiency", timestamp := 0 }] : List Alert) ≠
      [] := by
  constructor
  · norm_num [analyzeAndGenerateAlerts, checkCarbonEmissionAlerts,
      carbonTrendAlerts, carbonLevelAlerts, checkEnergyAlerts, efficiencyAlerts,
      spikeAlerts, renewableAlerts, checkEquipmentAlerts, terminalAlerts,
      checkEnvironmentalAlerts, checkOperationalAlerts, checkEsgAlerts,
      checkPredictiveAlerts, snapBadEfficiency, baseSnap, defaultThresholds,
      Except.bind]
  · simp

/-- C3 amended: the engine applies no contract validation at all — for
any snapshot (in range or not) the evaluation cycle on an empty history
succeeds, and whenever the raw `energy_efficiency` value lies below the
threshold (in particular for out-of-range values such as `-10`) the
efficiency alert carrying that unclamped raw value is among the computed
alerts. -/
theorem out_of_range_snapshot_evaluated_raw (cur : TelemetryData)
    (th : AlertThresholds) (now : Nat) :
    ∃ l, analyzeAndGenerateAlerts cur [] th now = Except.ok l ∧
      (cur.energy_efficiency < th.energy_efficiency_low →
        { type := "warning", priority := "medium", title := "⚡ 能源效率偏低",
          value := cur.energy_efficiency, category := "efficiency",
          timestamp := cur.timestamp } ∈ l) := by
  refine ⟨carbonLevelAlerts cur th ++ checkEnergyAlerts cur [] th ++
    checkEquipmentAlerts cur ++ checkEnvironmentalAlerts cur ++
    checkOperationalAlerts cur [] th ++ checkEsgAlerts cur th ++
    checkPredictiveAlerts [] th now, ?_, ?_⟩
  · simp [analyzeAndGenerateAlerts, checkCarbonEmissionAlerts,
      carbonTrendAlerts, Except.bind]
  · intro h
    simp [checkEnergyAlerts, efficiencyAlerts, if_pos h]

/-- C3 amended witness: instantiated at the out-of-range snapshot with
`energy_efficiency = -10` and the default thresholds. -/
theorem out_of_range_snapshot_evaluated_raw_witness :
    ∃ l, analyzeAndGenerateAlerts snapBadEfficiency [] defaultThresholds 0 =
        Except.ok l ∧
      { type := "warning", priority := "medium", title := "⚡ 能源效率偏低",
        value := -10, category := "efficiency", timestamp := 0 } ∈ l := by
  obtain ⟨l, hok, hmem⟩ :=
    out_of_range_snapshot_evaluated_raw snapBadEfficiency defaultThresholds 0
  have h : snapBadEfficiency.energy_efficiency <
      defaultThresholds.energy_efficiency_low := by
    norm_num [snapBadEfficiency, baseSnap, defaultThresholds]
  exact ⟨l, hok, by simpa [snapBadEfficiency, baseSnap] using hmem h⟩

/-- C5: the carbon-emission trend rule fires (returns a nonempty alert
list) exactly when the history has at least 3 samples, the last 3
carbon-emission values are strictly increasing, and the percentage rise
`(last - first) / first * 100` exceeds 15; when it fires it emits the one
`warning/medium` alert carrying that percentage.  (A zero baseline makes
the rational rate 0, matching non-firing; the code's fault there is
covered separately.) -/
theorem carbon_trend_rule_characterisation (cur : TelemetryData)
    (trend : List TelemetryData) :
    ((∃ l, carbonTrendAlerts cur trend = Except.ok l ∧ l ≠ []) ↔
      3 ≤ trend.length ∧
      strictlyIncreasing (recentEmissions trend) = true ∧
      15 < increaseRate trend) ∧
    (3 ≤ trend.length →
      strictlyIncreasing (recentEmissions trend) = true →
      15 < increaseRate trend →
      carbonTrendAlerts cur trend = Except.ok
        [{ type := "warning", priority := "medium", title := "📈 碳排放持續上升",
           value := increaseRate trend, category := "trend",
           timestamp := cur.timestamp }]) := by
  have hne : 15 < increaseRate trend → (recentEmissions trend).headD 0 ≠ 0 := by
    intro h4 h0
    rw [increaseRate, h0] at h4
    simp at h4
    exact absurd h4 (by norm_num)
  constructor
  · constructor
    · rintro ⟨l, hok, hnil⟩
      unfold carbonTrendAlerts at hok
      split_ifs at hok with h1 h2 h3 h4 <;>
        simp only [Except.ok.injEq, reduceCtorEq] at hok
      all_goals first
        | exact absurd hok.symm hnil
        | exact ⟨h1, h2, h4⟩
    · rintro ⟨h1, h2, h4⟩
      refine ⟨[{ type := "warning", priority := "medium",
                 title := "📈 碳排放持續上升", value := increaseRate trend,
                 category := "trend", timestamp := cur.timestamp }], ?_, by simp⟩
      unfold carbonTrendAlerts
      rw [if_pos h1, if_pos h2, if_neg (hne h4), if_pos h4]
  · intro h1 h2 h4
    unfold carbonTrendAlerts
    rw [if_pos h1, if_pos h2, if_neg (hne h4), if_pos h4]

/-- C5 witness: on the history `[100, 110, 125]` (strictly increasing,
25% rise) the trend rule fires with reported increase 25; on the
non-monotonic history `[100, 95, 110]` it does not fire. -/
theorem carbon_trend_rule_characterisation_witness :
    carbonTrendAlerts (mkEmissionSnap 3 125) risingEmissionHistory =
      Except.ok [{ type := "warning", priority := "medium",
                   title := "📈 碳排放持續上升", value := 25, category := "trend",
                   timestamp := 3 }] ∧
    ¬(∃ l, carbonTrendAlerts (mkEmissionSnap 3 110) bumpyEmissionHistory =
        Except.ok l ∧ l ≠ []) := by
  constructor
  · have h := (carbon_trend_rule_characterisation (mkEmissionSnap 3 125)
        risingEmissionHistory).2
      (by norm_num [risingEmissionHistory])
      (by norm_num [strictlyIncreasing, recentEmissions, risingEmissionHistory,
        mkEmissionSnap, baseSnap])
      (by norm_num [increaseRate, recentEmissions, risingEmissionHistory,
        mkEmissionSnap, baseSnap])
    rw [h]
    norm_num [increaseRate, recentEmissions, risingEmissionHistory,
      mkEmissionSnap, baseSnap]
  · intro hex
    have h := (carbon_trend_rule_characterisation (mkEmissionSnap 3 110)
        bumpyEmissionHistory).1.mp hex
    norm_num [strictlyIncreasing, recentEmissions, bumpyEmissionHistory,
      mkEmissionSnap, baseSnap] at h

/-- C6: the energy-consumption spike rule fires (emits its one
`error/high` alert, carrying the percentage over the mean) exactly when
the history has at least 2 samples and the current consumption exceeds
the mean of all history samples except the most recent one times the
spike ratio; and on the 5-sample history with consumptions
`[500, 500, 500, 500, x]` and current consumption `x` under the default
ratio 1.3, it fires iff `x > 650`. -/
theorem energy_spike_rule_characterisation :
    (∀ (cur : TelemetryData) (trend : List TelemetryData) (th : AlertThresholds),
      (spikeAlerts cur trend th ≠ [] ↔
        2 ≤ trend.length ∧
        mean (trend.dropLast.map (·.energy_consumption)) *
          th.energy_consumption_spike < cur.energy_consumption) ∧
      (2 ≤ trend.length →
        mean (trend.dropLast.map (·.energy_consumption)) *
          th.energy_consumption_spike < cur.energy_consumption →
        spikeAlerts cur trend th =
          [{ type := "error", priority := "high", title := "⚡ 能耗異常飆升",
             value := (cur.energy_consumption /
               mean (trend.dropLast.map (·.energy_consumption)) - 1) * 100,
             category := "consumption", timestamp := cur.timestamp }])) ∧
    (∀ x : ℚ, spikeAlerts (mkConsSnap 5 x) (spikeHistory x) defaultThresholds ≠ []
      ↔ 650 < x) := by
  have main : ∀ (cur : TelemetryData) (trend : List TelemetryData)
      (th : AlertThresholds),
      (spikeAlerts cur trend th ≠ [] ↔
        2 ≤ trend.length ∧
        mean (trend.dropLast.map (·.energy_consumption)) *
          th.energy_consumption_spike < cur.energy_consumption) ∧
      (2 ≤ trend.length →
        mean (trend.dropLast.map (·.energy_consumption)) *
          th.energy_consumption_spike < cur.energy_consumption →
        spikeAlerts cur trend th =
          [{ type := "error", priority := "high", title := "⚡ 能耗異常飆升",
             value := (cur.energy_consumption /
               mean (trend.dropLast.map (·.energy_consumption)) - 1) * 100,
             category := "consumption", timestamp := cur.timestamp }]) := by
    intro cur trend th
    constructor
    · unfold spikeAlerts
      split_ifs with h1 h2 <;> simp_all
    · intro h1 h2
      unfold spikeAlerts
      rw [if_pos h1, if_pos h2]
  refine ⟨main, fun x => ?_⟩
  have h := (main (mkConsSnap 5 x) (spikeHistory x) defaultThresholds).1
  rw [h]
  norm_num [mean, spikeHistory, mkConsSnap, baseSnap, defaultThresholds]

/-- C6 witness: at `x = 700 > 650` the spike rule fires on the
`[500, 500, 500, 500, x]` history, and at `x = 650` it does not. -/
theorem energy_spike_rule_characterisation_witness :
    (spikeAlerts (mkConsSnap 5 700) (spikeHistory 700) defaultThresholds ≠ [] ∧
     spikeAlerts (mkConsSnap 5 700) (spikeHistory 700) defaultThresholds =
       [{ type := "error", priority := "high", title := "⚡ 能耗異常飆升",
          value := 40, category := "consumption", timestamp := 5 }]) ∧
    ¬ spikeAlerts (mkConsSnap 5 650) (spikeHistory 650) defaultThresholds ≠ [] := by
  refine ⟨⟨?_, ?_⟩, ?_⟩
  · exact (energy_spike_rule_characterisation.2 700).mpr (by norm_num)
  · have h := (energy_spike_rule_characterisation.1 (mkConsSnap 5 700)
        (spikeHistory 700) defaultThresholds).2
      (by norm_num [spikeHistory])
      (by norm_num [mean, spikeHistory, mkConsSnap, baseSnap, defaultThresholds])
    rw [h]
    norm_num [mean, spikeHistory, mkConsSnap, baseSnap, defaultThresholds]
  · intro hne
    have h := (energy_spike_rule_characterisation.2 650).mp hne
    norm_num at h

/-- Dropping all but the last 50 elements ignores any prefix once the
suffix already holds at least 50 elements. -/
theorem lastFifty_append (p l : List Alert) (h : 50 ≤ l.length) :
    (p ++ l).drop ((p ++ l).length - 50) = l.drop (l.length - 50) := by
  rw [List.length_append, Nat.add_sub_assoc h p.length, List.drop_append]

/-- One history update is exactly "keep the last 50 of the old history
followed by the new alerts" (when at most 50 are present, dropping
`length - 50 = 0` elements keeps everything). -/
theorem updateAlertHistory_eq (hist active : List Alert) :
    updateAlertHistory hist active =
      (hist ++ active).drop ((hist ++ active).length - 50) := by
  unfold updateAlertHistory
  split_ifs with h
  · rfl
  · rw [Nat.sub_eq_zero_of_le (by omega), List.drop_zero]

/-- Truncating to the last 50 before appending more alerts gives the same
result as truncating once at the end. -/
theorem lastFifty_idem (z a : List Alert) :
    ((z.drop (z.length - 50)) ++ a).drop
        (((z.drop (z.length - 50)) ++ a).length - 50) =
      (z ++ a).drop ((z ++ a).length - 50) := by
  rcases le_or_lt z.length 50 with h | h
  · rw [Nat.sub_eq_zero_of_le h, List.drop_zero]
  · have hlen : (z.drop (z.length - 50)).length = 50 := by
      rw [List.length_drop]; omega
    have hge : 50 ≤ ((z.drop (z.length - 50)) ++ a).length := by
      rw [List.length_append, hlen]; omega
    conv_rhs => rw [(List.take_append_drop (z.length - 50) z).symm,
      List.append_assoc]
    rw [lastFifty_append _ _ hge]

/-- Folding history updates over any sequence of per-cycle alert lists
keeps exactly the last 50 of everything ever appended. -/
theorem foldl_updateAlertHistory (cycles : List (List Alert)) :
    ∀ hist : List Alert,
      cycles.foldl updateAlertHistory (hist.drop (hist.length - 50)) =
        (hist ++ cycles.flatten).drop ((hist ++ cycles.flatten).length - 50) := by
  induction cycles with
  | nil => intro hist; simp
  | cons c cs ih =>
    intro hist
    rw [List.foldl_cons, updateAlertHistory_eq, lastFifty_idem, ih (hist ++ c)]
    simp [List.append_assoc]

/-- C7: after any number of evaluation cycles (each appending its alert
list via `_update_alert_history` starting from the empty history) the
alert history holds at most 50 entries, and equals exactly the most
recent 50 of all alerts ever appended — every cycle's alerts are appended
before the oldest entries are evicted, FIFO. -/
theorem alert_history_bounded_fifo (cycles : List (List Alert)) :
    (cycles.foldl updateAlertHistory []).length ≤ 50 ∧
    cycles.foldl updateAlertHistory [] =
      cycles.flatten.drop (cycles.flatten.length - 50) := by
  have h := foldl_updateAlertHistory cycles []
  simp only [List.drop_nil, List.nil_append] at h
  refine ⟨?_, h⟩
  rw [h, List.length_drop]
  omega

/-- C8 counterexample: on the empty alert history the statistics call
returns the empty mapping (`{}` in Python, `none` here) — there is no
`total = 0` field and no empty aggregate dictionaries, contrary to the
claimed zero/empty structure. -/
theorem statistics_empty_no_total :
    getAlertStatistics [] = none ∧
    (getAlertStatistics []).map AlertStatistics.total ≠ some 0 := by
  exact ⟨rfl, by simp [getAlertStatistics]⟩

/-- C8 amended: over an empty history the statistics call returns the
empty mapping (no aggregates at all) and never raises; over a non-empty
history it returns `total` equal to the history length and `by_type`,
`by_category`, `by_priority` counting the alerts grouped by the
respective field. -/
theorem statistics_empty_and_grouped :
    getAlertStatistics [] = none ∧
    ∀ hist : List Alert, hist ≠ [] →
      ∃ s, getAlertStatistics hist = some s ∧
        s.total = hist.length ∧
        (∀ k, s.by_type k = hist.countP (fun a => a.type == k)) ∧
        (∀ k, s.by_category k = hist.countP (fun a => a.category == k)) ∧
        (∀ k, s.by_priority k = hist.countP (fun a => a.priority == k)) := by
  refine ⟨rfl, fun hist hne => ?_⟩
  refine ⟨{ total := hist.length, by_type := countBy (·.type) hist,
            by_category := countBy (·.category) hist,
            by_priority := countBy (·.priority) hist }, ?_, rfl,
          fun k => countBy_eq _ _ _, fun k => countBy_eq _ _ _,
          fun k => countBy_eq _ _ _⟩
  unfold getAlertStatistics
  rw [if_neg (by simpa using hne)]

/-- C8 amended witness: instantiated at the two-alert `demoHistory`. -/
theorem statistics_empty_and_grouped_witness :
    ∃ s, getAlertStatistics demoHistory = some s ∧
      s.total = demoHistory.length ∧
      (∀ k, s.by_type k = demoHistory.countP (fun a => a.type == k)) ∧
      (∀ k, s.by_category k = demoHistory.countP (fun a => a.category == k)) ∧
      (∀ k, s.by_priority k = demoHistory.countP (fun a => a.priority == k)) :=
  statistics_empty_and_grouped.2 demoHistory (by simp [demoHistory])

/-- C10: whenever the statistics call returns a populated record (exactly
the non-empty-history case), the record is internally consistent: `total`
equals the history length, and the counts of each of `by_type`,
`by_category` and `by_priority`, summed over the distinct keys occurring
in the history, equal `total`. -/
theorem statistics_internally_consistent (hist : List Alert)
    (s : AlertStatistics) (h : getAlertStatistics hist = some s) :
    s.total = hist.length ∧
    ((hist.map (·.type)).dedup.map s.by_type).sum = s.total ∧
    ((hist.map (·.category)).dedup.map s.by_category).sum = s.total ∧
    ((hist.map (·.priority)).dedup.map s.by_priority).sum = s.total := by
  unfold getAlertStatistics at h
  split_ifs at h with he
  injection h with h2
  subst h2
  exact ⟨rfl, sum_countBy_dedup _ _, sum_countBy_dedup _ _,
    sum_countBy_dedup _ _⟩

/-- C10 witness: instantiated at `demoHistory` and its statistics
record. -/
theorem statistics_internally_consistent_witness :
    demoStats.total = demoHistory.length ∧
    ((demoHistory.map (·.type)).dedup.map demoStats.by_type).sum =
      demoStats.total ∧
    ((demoHistory.map (·.category)).dedup.map demoStats.by_category).sum =
      demoStats.total ∧
    ((demoHistory.map (·.priority)).dedup.map demoStats.by_priority).sum =
      demoStats.total :=
  statistics_internally_consistent demoHistory demoStats rfl

/-- Carbon-level rule never yields more than one alert. -/
theorem carbonLevelAlerts_length_le (cur : TelemetryData) (th : AlertThresholds) :
    (carbonLevelAlerts cur th).length ≤ 1 := by
  unfold carbonLevelAlerts; split_ifs <;> simp

/-- Carbon-trend rule, when it does not fault, yields at most one
alert. -/
theorem carbonTrendAlerts_length_le (cur : TelemetryData)
    (trend : List TelemetryData) (t : List Alert)
    (h : carbonTrendAlerts cur trend = Except.ok t) : t.length ≤ 1 := by
  unfold carbonTrendAlerts at h
  split_ifs at h <;>
    first
      | exact Except.noConfusion h
      | (injection h with h2; rw [← h2]; simp)

/-- Energy section yields at most three alerts. -/
theorem checkEnergyAlerts_length_le (cur : TelemetryData)
    (trend : List TelemetryData) (th : AlertThresholds) :
    (checkEnergyAlerts cur trend th).length ≤ 3 := by
  unfold checkEnergyAlerts efficiencyAlerts spikeAlerts renewableAlerts
  split_ifs <;> simp

/-- Equipment section yields at most three alerts. -/
theorem checkEquipmentAlerts_length_le (cur : TelemetryData) :
    (checkEquipmentAlerts cur).length ≤ 3 := by
  unfold checkEquipmentAlerts terminalAlerts
  split_ifs <;> simp

/-- Environmental section yields at most two alerts. -/
theorem checkEnvironmentalAlerts_length_le (cur : TelemetryData) :
    (checkEnvironmentalAlerts cur).length ≤ 2 := by
  unfold checkEnvironmentalAlerts
  split_ifs <;> simp

/-- Operational section yields at most two alerts. -/
theorem checkOperationalAlerts_length_le (cur : TelemetryData)
    (trend : List TelemetryData) (th : AlertThresholds) :
    (checkOperationalAlerts cur trend th).length ≤ 2 := by
  unfold checkOperationalAlerts
  split_ifs <;> simp

/-- ESG rule yields at most one alert. -/
theorem checkEsgAlerts_length_le (cur : TelemetryData) (th : AlertThresholds) :
    (checkEsgAlerts cur th).length ≤ 1 := by
  unfold checkEsgAlerts; split_ifs <;> simp

/-- Predictive rule yields at most one alert. -/
theorem checkPredictiveAlerts_length_le (trend : List TelemetryData)
    (th : AlertThresholds) (now : Nat) :
    (checkPredictiveAlerts trend th now).length ≤ 1 := by
  unfold checkPredictiveAlerts; split_ifs <;> simp

/-- Timestamp-stripped content of the predictive alerts does not depend
on the evaluation instant. -/
theorem predictive_content_now (trend : List TelemetryData)
    (th : AlertThresholds) (now now2 : Nat) :
    (checkPredictiveAlerts trend th now).map alertContent =
      (checkPredictiveAlerts trend th now2).map alertContent := by
  unfold checkPredictiveAlerts; split_ifs <;> simp [alertContent]

/-- A successful evaluation cycle is the concatenation of all rule
sections in source order. -/
theorem analyze_ok_shape (cur : TelemetryData) (trend : List TelemetryData)
    (th : AlertThresholds) (now : Nat) (l : List Alert) (t : List Alert)
    (hct : carbonTrendAlerts cur trend = Except.ok t)
    (h : analyzeAndGenerateAlerts cur trend th now = Except.ok l) :
    l = (carbonLevelAlerts cur th ++ t) ++ checkEnergyAlerts cur trend th ++
      checkEquipmentAlerts cur ++ checkEnvironmentalAlerts cur ++
      checkOperationalAlerts cur trend th ++ checkEsgAlerts cur th ++
      checkPredictiveAlerts trend th now := by
  unfold analyzeAndGenerateAlerts checkCarbonEmissionAlerts at h
  rw [hct] at h
  simp only [Except.bind, bind, pure, Except.pure] at h
  injection h with h2
  exact h2.symm

/-- A successful evaluation cycle produces at most 14 alerts (the maximum
any one run of all twelve rule checks can emit). -/
theorem analyze_ok_length (cur : TelemetryData) (trend : List TelemetryData)
    (th : AlertThresholds) (now : Nat) (l : List Alert)
    (h : analyzeAndGenerateAlerts cur trend th now = Except.ok l) :
    l.length ≤ 14 := by
  cases hct : carbonTrendAlerts cur trend with
  | error e =>
    unfold analyzeAndGenerateAlerts checkCarbonEmissionAlerts at h
    rw [hct] at h
    simp only [Except.bind, bind] at h
    exact Except.noConfusion h
  | ok t =>
    have e1 := analyze_ok_shape cur trend th now l t hct h
    subst e1
    simp only [List.length_append]
    have b1 := carbonLevelAlerts_length_le cur th
    have b2 := carbonTrendAlerts_length_le cur trend t hct
    have b3 := checkEnergyAlerts_length_le cur trend th
    have b4 := checkEquipmentAlerts_length_le cur
    have b5 := checkEnvironmentalAlerts_length_le cur
    have b6 := checkOperationalAlerts_length_le cur trend th
    have b7 := checkEsgAlerts_length_le cur th
    have b8 := checkPredictiveAlerts_length_le trend th now
    omega

/-- Two successful evaluation cycles over the same snapshot, history and
thresholds produce the same alert content up to timestamps. -/
theorem analyze_ok_content (cur : TelemetryData) (trend : List TelemetryData)
    (th : AlertThresholds) (now now2 : Nat) (l l2 : List Alert)
    (h1 : analyzeAndGenerateAlerts cur trend th now = Except.ok l)
    (h2 : analyzeAndGenerateAlerts cur trend th now2 = Except.ok l2) :
    l.map alertContent = l2.map alertContent := by
  cases hct : carbonTrendAlerts cur trend with
  | error e =>
    unfold analyzeAndGenerateAlerts checkCarbonEmissionAlerts at h1
    rw [hct] at h1
    simp only [Except.bind, bind] at h1
    exact Except.noConfusion h1
  | ok t =>
    have e1 := analyze_ok_shape cur trend th now l t hct h1
    have e2 := analyze_ok_shape cur trend th now2 l2 t hct h2
    subst e1
    subst e2
    simp only [List.map_append, predictive_content_now trend th now now2]

/-- C9: evaluating twice with an unchanged source (same current snapshot,
same history) and unchanged thresholds yields two active lists with
identical alert content apart from timestamps, and appending both to an
initially empty alert history leaves it exactly twice as long as after
the first cycle. -/
theorem evaluate_twice_same_content_doubles_history (cur : TelemetryData)
    (trend : List TelemetryData) (th : AlertThresholds) (now now2 : Nat)
    (l l2 : List Alert)
    (h1 : analyzeAndGenerateAlerts cur trend th now = Except.ok l)
    (h2 : analyzeAndGenerateAlerts cur trend th now2 = Except.ok l2) :
    l.map alertContent = l2.map alertContent ∧
    (updateAlertHistory (updateAlertHistory [] l) l2).length =
      2 * (updateAlertHistory [] l).length := by
  have hc := analyze_ok_content cur trend th now now2 l l2 h1 h2
  have hl := analyze_ok_length cur trend th now l h1
  have hl2 : l2.length = l.length := by
    have hlen := congrArg List.length hc
    simpa using hlen.symm
  have u1 : updateAlertHistory [] l = l := by
    unfold updateAlertHistory
    rw [List.nil_append, if_neg (by omega)]
  have u2 : updateAlertHistory l l2 = l ++ l2 := by
    unfold updateAlertHistory
    rw [if_neg (by rw [List.length_append]; omega)]
  refine ⟨hc, ?_⟩
  rw [u1, u2, List.length_append]
  omega

/-- C9 witness: two cycles on `snapLowEfficiency` with an empty history
each emit exactly the one efficiency alert; the contents agree and the
history total doubles. -/
theorem evaluate_twice_same_content_doubles_history_witness :
    ([{ type := "warning", priority := "medium", title := "⚡ 能源效率偏低",
        value := 50, category := "efficiency", timestamp := 5 }].map alertContent =
      [{ type := "warning", priority := "medium", title := "⚡ 能源效率偏低",
         value := 50, category := "efficiency", timestamp := 5 }].map alertContent) ∧
    (updateAlertHistory
        (updateAlertHistory []
          [{ type := "warning", priority := "medium", title := "⚡ 能源效率偏低",
             value := 50, category := "efficiency", timestamp := 5 }])
        [{ type := "warning", priority := "medium", title := "⚡ 能源效率偏低",
           value := 50, category := "efficiency", timestamp := 5 }]).length =
      2 * (updateAlertHistory []
        [{ type := "warning", priority := "medium", title := "⚡ 能源效率偏低",
           value := 50, category := "efficiency", timestamp := 5 }]).length := by
  have h : ∀ now : Nat,
      analyzeAndGenerateAlerts snapLowEfficiency [] defaultThresholds now =
        Except.ok [{ type := "warning", priority := "medium",
                     title := "⚡ 能源效率偏低", value := 50,
                     category := "efficiency", timestamp := 5 }] := by
    intro now
    norm_num [analyzeAndGenerateAlerts, checkCarbonEmissionAlerts,
      carbonTrendAlerts, carbonLevelAlerts, checkEnergyAlerts, efficiencyAlerts,
      spikeAlerts, renewableAlerts, checkEquipmentAlerts, terminalAlerts,
      checkEnvironmentalAlerts, checkOperationalAlerts, checkEsgAlerts,
      checkPredictiveAlerts, snapLowEfficiency, baseSnap, defaultThresholds,
      Except.bind]
  exact evaluate_twice_same_content_doubles_history snapLowEfficiency []
    defaultThresholds 0 1 _ _ (h 0) (h 1)

/-- C4 witness: with emission 1600 and the default thresholds (critical
1500) the rule emits exactly the one `error/critical` alert. -/
theorem carbon_level_rule_exclusive_witness :
    (carbonLevelAlerts snapCritical defaultThresholds).countP
        (fun a => a.type == "error" && a.priority == "critical") = 1 ∧
    (carbonLevelAlerts snapCritical defaultThresholds).countP
        (fun a => a.type == "warning" && a.priority == "high") = 0 ∧
    (carbonLevelAlerts snapCritical defaultThresholds).length = 1 :=
  (carbon_level_rule_exclusive snapCritical defaultThresholds).1
    (by norm_num [snapCritical, baseSnap, defaultThresholds])

end EcoPort
